import Mathlib

/-!
Verification of the Linux/Android backend of the `getrandom` crate
(`src/linux_android.rs`), as a shallow embedding.

The module issues the raw `getrandom` syscall when available, falling back
to reading `/dev/urandom` after a one-time blocking read of `/dev/random`.
OS interactions (syscall returns, file opens, device reads) are modelled by
an oracle `Env`; the process-wide flags (`RNG_INIT`, the `Once`-guarded
availability cache) become a `ProcState`, the thread-local `RNG_SOURCE`
cell becomes a `ThreadState`, and every OS interaction is recorded in an
event trace so that temporal properties can be stated.
-/

namespace Getrandom

/-- The paths of the two character devices used by the module. -/
inductive DevPath
  | random
  | urandom
deriving DecidableEq, Repr

/-- An open file handle, identified by the device path it was opened on
(`std::fs::File` as used here carries no other observable state). -/
structure File where
  path : DevPath
deriving DecidableEq, Repr

/-- An `std::io::Error`: either an OS error with its raw errno, or an
end-of-file style error with no OS code (as produced by a short
`read_exact`). -/
inductive IOErr
  | os (code : Int)
  | eof
deriving DecidableEq, Repr

/-- `io::Error::raw_os_error()`. -/
def IOErr.rawOsError : IOErr → Option Int
  | .os code => some code
  | .eof => none

/-- `libc::ENOSYS` on Linux. -/
def ENOSYS : Int := 38

/-- The outcome of one raw `SYS_getrandom` syscall: the `c_long` return
value and the value of `errno` observed right after the call
(`io::Error::last_os_error()`). -/
structure SyscallResult where
  ret : Int
  errno : Int
deriving DecidableEq, Repr

/-- The `usize → i64` cast `dest.len() as i64` (two's-complement wrap). -/
def asI64 (n : Nat) : Int := ((n : Int) + 2 ^ 63) % 2 ^ 64 - 2 ^ 63

/-- `syscall_getrandom` (src/linux_android.rs:31-39): issues the raw
syscall; fails iff `ret == -1 || ret != dest.len() as i64`, returning
`io::Error::last_os_error()`. -/
def syscall_getrandom (len : Nat) (r : SyscallResult) : Except IOErr Unit :=
  if r.ret = -1 ∨ r.ret ≠ asI64 len then .error (.os r.errno) else .ok ()

/-- An event in the trace of OS interactions. -/
inductive Event
  | syscall (len : Nat) (r : SyscallResult)
  | openDev (p : DevPath) (ok : Bool)
  | devRead (p : DevPath) (len : Nat) (ok : Bool)
deriving DecidableEq, Repr

/-- The process-wide mutable state: `RNG_INIT` (the pool-readiness flag,
src/linux_android.rs:20) and the `Once`-guarded availability cache
(`CHECKER`/`AVAILABLE`, src/linux_android.rs:69-70), `none` before the
probe has run. -/
structure ProcState where
  rngInit : Bool
  avail : Option Bool
deriving DecidableEq, Repr

/-- `enum RngSource` (src/linux_android.rs:22-25). -/
inductive RngSource
  | GetRandom
  | Device (f : File)
deriving DecidableEq, Repr

/-- The thread-local `RNG_SOURCE: RefCell<Option<RngSource>>`
(src/linux_android.rs:27-29) of the calling thread. -/
structure ThreadState where
  source : Option RngSource
deriving DecidableEq, Repr

/-- The OS oracle for one `getrandom` call: the results the kernel would
give for each interaction the call may perform. -/
structure Env where
  /-- Result of the zero-length probe syscall, if the probe runs. -/
  probe : SyscallResult
  /-- Result of `File::open("/dev/random")`. -/
  openRandom : Except IOErr Unit
  /-- Result of the single-byte blocking `read_exact` on `/dev/random`. -/
  readRandom : Except IOErr Unit
  /-- Result of `File::open("/dev/urandom")`. -/
  openUrandom : Except IOErr Unit
  /-- Result of the fill syscall, if the source is `GetRandom`. -/
  fillSys : SyscallResult
  /-- Result of `read_exact(dest)` on the device, if the source is a
  `Device` and the buffer is non-empty. -/
  readDev : Except IOErr Unit

/-- The probe decision inside `CHECKER.call_once`
(src/linux_android.rs:73-77): zero-length syscall; available unless it
failed with raw OS error `ENOSYS`. -/
def probeAvailable (r : SyscallResult) : Bool :=
  match syscall_getrandom 0 r with
  | .ok _ => true
  | .error err => err.rawOsError != some ENOSYS

/-- `is_getrandom_available` (src/linux_android.rs:66-82): on first call
run the probe once and cache the boolean; afterwards return the cached
boolean. Returns the answer, the updated process state, and the trace of
syscalls issued. -/
def is_getrandom_available (env : Env) (ps : ProcState) :
    Bool × ProcState × List Event :=
  match ps.avail with
  | some b => (b, ps, [])
  | none =>
      let b := probeAvailable env.probe
      (b, { ps with avail := some b }, [.syscall 0 env.probe])

/-- The pool-readiness gate (src/linux_android.rs:50-53): if `RNG_INIT`
is unset, open `/dev/random`, read one byte (blocking), and on success
store `RNG_INIT := true`. -/
def poolReady (env : Env) (ps : ProcState) :
    Except IOErr Unit × ProcState × List Event :=
  if ps.rngInit then (.ok (), ps, [])
  else
    match env.openRandom with
    | .error e => (.error e, ps, [.openDev .random false])
    | .ok _ =>
        match env.readRandom with
        | .error e =>
            (.error e, ps, [.openDev .random true, .devRead .random 1 false])
        | .ok _ =>
            (.ok (), { ps with rngInit := true },
              [.openDev .random true, .devRead .random 1 true])

/-- The init closure of `getrandom` (src/linux_android.rs:44-56): if the
syscall is available resolve to `GetRandom`; otherwise run the readiness
gate, then open `/dev/urandom` and resolve to `Device`. -/
def initSource (env : Env) (ps : ProcState) :
    Except IOErr RngSource × ProcState × List Event :=
  let q := is_getrandom_available env ps
  if q.1 then (.ok .GetRandom, q.2.1, q.2.2)
  else
    let g := poolReady env q.2.1
    match g.1 with
    | .error e => (.error e, g.2.1, q.2.2 ++ g.2.2)
    | .ok _ =>
        match env.openUrandom with
        | .ok _ =>
            (.ok (.Device ⟨.urandom⟩), g.2.1,
              q.2.2 ++ g.2.2 ++ [.openDev .urandom true])
        | .error e => (.error e, g.2.1, q.2.2 ++ g.2.2 ++ [.openDev .urandom false])

/-- `std::io::Read::read_exact` on the device, as std documents it: an
empty buffer succeeds without issuing any read; otherwise the read either
fills the buffer completely or fails (a short read surfaces as an error,
with no partial result). -/
def read_exact (len : Nat) (r : Except IOErr Unit) : Except IOErr Unit :=
  if len = 0 then .ok () else r

/-- The trace of device reads performed by `read_exact`. -/
def readEvents (f : File) (len : Nat) (r : Except IOErr Unit) : List Event :=
  if len = 0 then [] else [.devRead f.path len r.isOk]

/-- The use closure of `getrandom` (src/linux_android.rs:57-61): dispatch
the fill to the resolved source. -/
def dispatch (env : Env) (len : Nat) : RngSource → Except IOErr Unit × List Event
  | .GetRandom => (syscall_getrandom len env.fillSys, [.syscall len env.fillSys])
  | .Device f => (read_exact len env.readDev, readEvents f len env.readDev)

/-- Modelled from the spec: `utils::use_init`, whose source file is not
part of this module (only its caller is). Per the spec's per-thread lazy
cache design, it is a compute-if-absent-then-use pattern on the
thread-local `Option`: if the cell is empty, run the init closure, and on
its success store the produced source; then run the use closure on the
stored source. An init failure propagates and leaves the cell empty. -/
def use_init (ps : ProcState) (cache : Option RngSource)
    (init : ProcState → Except IOErr RngSource × ProcState × List Event)
    (use : RngSource → Except IOErr Unit × List Event) :
    Except IOErr Unit × ProcState × Option RngSource × List Event :=
  match cache with
  | some s => ((use s).1, ps, some s, (use s).2)
  | none =>
      let i := init ps
      match i.1 with
      | .error e => (.error e, i.2.1, none, i.2.2)
      | .ok s => ((use s).1, i.2.1, some s, i.2.2 ++ (use s).2)

/-- Modelled from the spec: the crate's public error type is an external
collaborator (its definition is outside this module). The spec requires a
single generic "unknown" kind to which this module collapses every
failure; the type itself offers more than one value, so the collapse is
an actual property of the module, not of the type. -/
inductive Error
  | Unknown
  | Unavailable
deriving DecidableEq, Repr

/-- `getrandom` (src/linux_android.rs:41-64): run `use_init` on the
thread-local cell with the init and dispatch closures, and map any error
to `Error::Unknown`. Returns the result, the updated process state, the
updated thread state, and the trace of OS interactions. -/
def getrandom (env : Env) (len : Nat) (ps : ProcState) (ts : ThreadState) :
    Except Error Unit × ProcState × ThreadState × List Event :=
  let u := use_init ps ts.source (initSource env) (dispatch env len)
  (u.1.mapError fun _ => Error.Unknown, u.2.1, ⟨u.2.2.1⟩, u.2.2.2)

/-- Repeated queries of the Availability Detector, one query per oracle in
the list, threading the process state; the third component counts the
probe syscalls issued (each query's trace length). -/
def runQueries (ps : ProcState) : List Env → List Bool × ProcState × Nat
  | [] => ([], ps, 0)
  | e :: rest =>
      let q := is_getrandom_available e ps
      let r := runQueries q.2.1 rest
      (q.1 :: r.1, r.2.1, q.2.2.length + r.2.2)

/-- Event `a` occurs in `tr` and does so strictly before any event
satisfying `p`: the trace splits as `pre ++ a :: rest` with no `p`-event
in `pre`. -/
def before (a : Event) (p : Event → Prop) (tr : List Event) : Prop :=
  ∃ pre rest, tr = pre ++ a :: rest ∧ ∀ x ∈ pre, ¬p x

/-- The reachable-state invariant on a thread's cache: any cached device
handle was opened on `/dev/urandom`. -/
def validTS (ts : ThreadState) : Prop :=
  ∀ f, ts.source = some (RngSource.Device f) → f.path = DevPath.urandom

/-- A concrete oracle on which every OS interaction succeeds (the probe
and fill syscalls return `0`). -/
def env0 : Env :=
  { probe := ⟨0, 0⟩, openRandom := .ok (), readRandom := .ok (),
    openUrandom := .ok (), fillSys := ⟨0, 0⟩, readDev := .ok () }

/-- A concrete oracle whose fill syscall is interrupted (`EINTR = 4`):
it returns `-1` with errno `4`. -/
def envEintr : Env := { env0 with fillSys := ⟨-1, 4⟩ }

/-- A concrete oracle on a kernel without the syscall: the probe returns
`-1` with errno `ENOSYS = 38`; the device interactions all succeed. -/
def envNoSys : Env := { env0 with probe := ⟨-1, 38⟩ }

/-- A concrete oracle on a kernel without the syscall where opening
`/dev/random` fails with `EACCES = 13`. -/
def envOpenFail : Env := { envNoSys with openRandom := .error (.os 13) }

/-- A concrete oracle on a kernel without the syscall where the blocking
single-byte read fails with `EIO = 5`. -/
def envReadFail : Env := { envNoSys with readRandom := .error (.os 5) }

/-- For a valid Rust buffer length (slices never exceed `isize::MAX` bytes)
the `usize → i64` cast is the identity. -/
theorem asI64_eq (n : Nat) (h : n < 2 ^ 63) : asI64 n = n := by
  have h1 : (0 : Int) ≤ (n : Int) + 2 ^ 63 := by positivity
  have h2 : (n : Int) + 2 ^ 63 < 2 ^ 64 := by
    have hn : (n : Int) < 2 ^ 63 := by exact_mod_cast h
    have : ((2 : Int) ^ 63 + 2 ^ 63 : Int) = 2 ^ 64 := by norm_num
    omega
  unfold asI64
  rw [Int.emod_eq_of_lt h1 h2]
  ring

/-- C1: for every buffer (of valid Rust length), a fill dispatched to the
raw syscall succeeds iff the syscall's return value exactly equals the
requested length; any other return value yields a failure carrying the
underlying OS error code. -/
theorem syscall_fill_succeeds_iff_exact (len : Nat) (r : SyscallResult)
    (h : len < 2 ^ 63) :
    (syscall_getrandom len r = .ok () ↔ r.ret = (len : Int)) ∧
    (r.ret ≠ (len : Int) → syscall_getrandom len r = .error (.os r.errno)) := by
  have hlen : (0 : Int) ≤ (len : Int) := Int.natCast_nonneg len
  unfold syscall_getrandom
  rw [asI64_eq len h]
  constructor
  · constructor
    · intro hok
      by_cases hc : r.ret = -1 ∨ r.ret ≠ (len : Int)
      · simp [hc] at hok
      · push_neg at hc
        exact hc.2
    · intro he
      have hc : ¬(r.ret = -1 ∨ r.ret ≠ (len : Int)) := by
        push_neg
        exact ⟨by omega, he⟩
      simp [hc]
  · intro hne
    simp [Or.inr hne]

/-- Witness for C1 at `len = 8`, syscall returning 8 with errno 0. -/
theorem syscall_fill_succeeds_iff_exact_witness :
    (8 : Nat) < 2 ^ 63 ∧
      ((syscall_getrandom 8 ⟨8, 0⟩ = .ok () ↔ (8 : Int) = ((8 : Nat) : Int)) ∧
        ((8 : Int) ≠ ((8 : Nat) : Int) →
          syscall_getrandom 8 ⟨8, 0⟩ = .error (.os 0))) :=
  ⟨by norm_num, syscall_fill_succeeds_iff_exact 8 ⟨8, 0⟩ (by norm_num)⟩

/-- C2: the availability decision — available when the zero-length probe
succeeds, unavailable exactly when the probe fails with `ENOSYS`, and
available for any other probe failure. -/
theorem probe_availability_decision (r : SyscallResult) :
    (syscall_getrandom 0 r = .ok () → probeAvailable r = true) ∧
    (probeAvailable r = false ↔
      syscall_getrandom 0 r = .error (.os ENOSYS)) ∧
    (∀ e : Int, syscall_getrandom 0 r = .error (.os e) → e ≠ ENOSYS →
      probeAvailable r = true) := by
  unfold probeAvailable syscall_getrandom
  by_cases hc : r.ret = -1 ∨ r.ret ≠ asI64 0
  · simp only [hc, if_pos]
    refine ⟨by intro h; exact absurd h (by simp), ?_, ?_⟩
    · simp [IOErr.rawOsError]
    · intro e he hne
      have : r.errno = e := by simpa using he
      simp [IOErr.rawOsError, this, hne]
  · simp only [hc, if_neg, not_false_iff]
    refine ⟨by trivial, by simp, fun e he _ => by simp at he⟩

/-- Witness for C2 at a probe returning `-1` with errno `ENOSYS` (38). -/
theorem probe_availability_decision_witness :
    (syscall_getrandom 0 ⟨-1, 38⟩ = .ok () →
      probeAvailable ⟨-1, 38⟩ = true) ∧
    (probeAvailable ⟨-1, 38⟩ = false ↔
      syscall_getrandom 0 ⟨-1, 38⟩ = .error (.os ENOSYS)) ∧
    (∀ e : Int, syscall_getrandom 0 ⟨-1, 38⟩ = .error (.os e) → e ≠ ENOSYS →
      probeAvailable ⟨-1, 38⟩ = true) :=
  probe_availability_decision ⟨-1, 38⟩

/-- Mapping internal errors to the boundary error preserves success. -/
theorem mapError_ok_iff (x : Except IOErr Unit) :
    x.mapError (fun _ => Error.Unknown) = .ok () ↔ x = .ok () := by
  cases x <;> simp [Except.mapError]

/-- C7: the public fill returns either success or the single opaque
`Unknown` failure value, for every oracle, buffer length, process state
and thread state: every internal error cause is collapsed to the one
generic kind, with all OS error detail discarded at the boundary. -/
theorem fill_collapses_errors (env : Env) (len : Nat) (ps : ProcState)
    (ts : ThreadState) :
    (getrandom env len ps ts).1 = .ok () ∨
    (getrandom env len ps ts).1 = .error Error.Unknown := by
  simp only [getrandom]
  cases hx : (use_init ps ts.source (initSource env) (dispatch env len)).1 with
  | ok a => cases a; exact Or.inl (by simp [Except.mapError])
  | error e => exact Or.inr (by simp [Except.mapError])

/-- C9: once a thread's source is resolved, a fill call leaves the process
state and the thread's cached resolution unchanged and performs no
file-open side effect. -/
theorem cached_source_no_resolution (env : Env) (len : Nat) (ps : ProcState)
    (ts : ThreadState) (s : RngSource) (h : ts.source = some s) :
    (getrandom env len ps ts).2.1 = ps ∧
    (getrandom env len ps ts).2.2.1 = ts ∧
    ∀ p b, Event.openDev p b ∉ (getrandom env len ps ts).2.2.2 := by
  refine ⟨?_, ?_, ?_⟩
  · simp [getrandom, use_init, h]
  · simp only [getrandom, use_init, h]
    rw [← h]
  · simp only [getrandom, use_init, h]
    cases s with
    | GetRandom => simp [dispatch]
    | Device f =>
        by_cases hlen : len = 0 <;> simp [dispatch, readEvents, hlen]

/-- Witness for C9 on the all-success oracle, a cached syscall source. -/
theorem cached_source_no_resolution_witness :
    (getrandom env0 8 ⟨true, some true⟩ ⟨some .GetRandom⟩).2.1 =
        ⟨true, some true⟩ ∧
      (getrandom env0 8 ⟨true, some true⟩ ⟨some .GetRandom⟩).2.2.1 =
        ⟨some .GetRandom⟩ ∧
      ∀ p b, Event.openDev p b ∉
        (getrandom env0 8 ⟨true, some true⟩ ⟨some .GetRandom⟩).2.2.2 :=
  cached_source_no_resolution env0 8 ⟨true, some true⟩ ⟨some .GetRandom⟩
    .GetRandom rfl

/-- C6: a fill dispatched to a cached device source succeeds exactly when
the device read fills the buffer completely; a short or failed read is a
failure with no partial-result recovery; and exactly one read is issued
(no retry at this layer). -/
theorem device_fill_complete_or_fail (env : Env) (len : Nat) (ps : ProcState)
    (ts : ThreadState) (f : File) (h : ts.source = some (.Device f))
    (hlen : len ≠ 0) :
    ((getrandom env len ps ts).1 = .ok () ↔ env.readDev = .ok ()) ∧
    (∀ e, env.readDev = .error e →
      (getrandom env len ps ts).1 = .error Error.Unknown) ∧
    (getrandom env len ps ts).2.2.2 = [.devRead f.path len env.readDev.isOk] := by
  simp only [getrandom, use_init, h, dispatch, read_exact, readEvents,
    if_neg hlen]
  refine ⟨mapError_ok_iff env.readDev, ?_, by trivial⟩
  intro e he
  simp [he, Except.mapError]

/-- Witness for C6: cached urandom handle, 8-byte read that succeeds. -/
theorem device_fill_complete_or_fail_witness :
    ((getrandom env0 8 ⟨true, some true⟩
        ⟨some (.Device ⟨.urandom⟩)⟩).1 = .ok () ↔ env0.readDev = .ok ()) ∧
      (∀ e, env0.readDev = .error e →
        (getrandom env0 8 ⟨true, some true⟩
          ⟨some (.Device ⟨.urandom⟩)⟩).1 = .error Error.Unknown) ∧
      (getrandom env0 8 ⟨true, some true⟩
          ⟨some (.Device ⟨.urandom⟩)⟩).2.2.2 =
        [.devRead (⟨.urandom⟩ : File).path 8 env0.readDev.isOk] :=
  device_fill_complete_or_fail env0 8 ⟨true, some true⟩
    ⟨some (.Device ⟨.urandom⟩)⟩ ⟨.urandom⟩ rfl (by norm_num)

/-- C10: if a fill on a thread with an unresolved source fails during
source resolution, the thread cache stays empty, the call reports the
generic failure, and a later call on the same thread re-attempts
resolution (it caches whatever a successful re-resolution produces,
rather than returning a cached failure). -/
theorem failed_init_not_cached (env : Env) (len : Nat) (ps : ProcState)
    (ts : ThreadState) (e : IOErr) (hts : ts.source = none)
    (hfail : (initSource env ps).1 = .error e) :
    (getrandom env len ps ts).1 = .error Error.Unknown ∧
    (getrandom env len ps ts).2.2.1 = ⟨none⟩ ∧
    (∀ env2 len2 s, (initSource env2 (getrandom env len ps ts).2.1).1 = .ok s →
      (getrandom env2 len2 (getrandom env len ps ts).2.1
          (getrandom env len ps ts).2.2.1).2.2.1 = ⟨some s⟩) := by
  have h1 : (getrandom env len ps ts).2.2.1 = ⟨none⟩ := by
    simp [getrandom, use_init, hts, hfail]
  refine ⟨?_, h1, ?_⟩
  · simp [getrandom, use_init, hts, hfail, Except.mapError]
  · intro env2 len2 s hs
    rw [h1]
    generalize hq : (getrandom env len ps ts).2.1 = ps1 at hs ⊢
    simp [getrandom, use_init, hs]

/-- Witness for C10: `/dev/random` cannot be opened (`EACCES`), so the
first fill fails, caches nothing, and a retry against a healthy oracle
resolves the source. -/
theorem failed_init_not_cached_witness :
    (getrandom envOpenFail 8 ⟨false, none⟩ ⟨none⟩).1 = .error Error.Unknown ∧
      (getrandom envOpenFail 8 ⟨false, none⟩ ⟨none⟩).2.2.1 = ⟨none⟩ ∧
      (∀ env2 len2 s,
        (initSource env2 (getrandom envOpenFail 8 ⟨false, none⟩ ⟨none⟩).2.1).1 =
          .ok s →
        (getrandom env2 len2 (getrandom envOpenFail 8 ⟨false, none⟩ ⟨none⟩).2.1
            (getrandom envOpenFail 8 ⟨false, none⟩ ⟨none⟩).2.2.1).2.2.1 =
          ⟨some s⟩) :=
  failed_init_not_cached envOpenFail 8 ⟨false, none⟩ ⟨none⟩ (.os 13) rfl rfl

/-- The availability query never touches the pool-readiness flag. -/
theorem avail_rngInit (env : Env) (ps : ProcState) :
    (is_getrandom_available env ps).2.1.rngInit = ps.rngInit := by
  cases h : ps.avail <;> simp [is_getrandom_available, h]

/-- The availability query's trace is empty (cache hit) or the single
zero-length probe syscall. -/
theorem avail_trace (env : Env) (ps : ProcState) :
    (is_getrandom_available env ps).2.2 = [] ∨
    (is_getrandom_available env ps).2.2 = [.syscall 0 env.probe] := by
  cases h : ps.avail <;> simp [is_getrandom_available, h]

/-- Every event of the availability query's trace is a syscall event. -/
theorem probe_trace_syscall (env : Env) (ps : ProcState) :
    ∀ x ∈ (is_getrandom_available env ps).2.2, ∃ r, x = Event.syscall 0 r := by
  rcases avail_trace env ps with h | h <;> simp [h]

/-- A cache hit leaves the process state unchanged. -/
theorem avail_cached (env : Env) (ps : ProcState) (b : Bool)
    (h : ps.avail = some b) :
    is_getrandom_available env ps = (b, ps, []) := by
  simp [is_getrandom_available, h]

/-- A cache miss runs the probe once and caches its decision. -/
theorem avail_uncached (env : Env) (ps : ProcState) (h : ps.avail = none) :
    is_getrandom_available env ps =
      (probeAvailable env.probe, { ps with avail := some (probeAvailable env.probe) },
        [.syscall 0 env.probe]) := by
  simp [is_getrandom_available, h]

/-- After the availability cache holds `b`, any further query sequence
returns `b` every time, performs no probe, and leaves the state alone. -/
theorem runQueries_cached (b : Bool) (ps : ProcState) (h : ps.avail = some b)
    (envs : List Env) : runQueries ps envs = (envs.map fun _ => b, ps, 0) := by
  induction envs with
  | nil => simp [runQueries]
  | cons e rest ih => simp [runQueries, avail_cached e ps b h, ih]

/-- C4: starting from an uncomputed availability cache, any sequence of
queries performs exactly one probe (on the first query); every query
returns the identical boolean, and the cached value never changes. -/
theorem availability_stable (e : Env) (envs : List Env) (ps : ProcState)
    (h : ps.avail = none) :
    runQueries ps (e :: envs) =
      ((e :: envs).map fun _ => probeAvailable e.probe,
        { ps with avail := some (probeAvailable e.probe) }, 1) := by
  have hc := runQueries_cached (probeAvailable e.probe)
    { ps with avail := some (probeAvailable e.probe) } rfl envs
  simp [runQueries, avail_uncached e ps h, hc]

/-- Witness for C4: three queries on a fresh process, first against the
all-success oracle; one probe, and `true` every time. -/
theorem availability_stable_witness :
    runQueries ⟨false, none⟩ (env0 :: [env0, envNoSys]) =
      ((env0 :: [env0, envNoSys]).map fun _ => probeAvailable env0.probe,
        ⟨false, some (probeAvailable env0.probe)⟩, 1) :=
  availability_stable env0 [env0, envNoSys] ⟨false, none⟩ rfl

/-- Exhaustive characterization of the init closure by the availability
answer, the readiness flag and the oracle's open/read outcomes. -/
theorem initSource_cases (env : Env) (ps : ProcState) :
    ((is_getrandom_available env ps).1 = true ∧
      initSource env ps =
        (.ok .GetRandom, (is_getrandom_available env ps).2.1,
          (is_getrandom_available env ps).2.2)) ∨
    ((is_getrandom_available env ps).1 = false ∧ ps.rngInit = true ∧
      env.openUrandom = .ok () ∧
      initSource env ps =
        (.ok (.Device ⟨.urandom⟩), (is_getrandom_available env ps).2.1,
          (is_getrandom_available env ps).2.2 ++ [.openDev .urandom true])) ∨
    ((is_getrandom_available env ps).1 = false ∧ ps.rngInit = true ∧
      ∃ e, env.openUrandom = .error e ∧
        initSource env ps =
          (.error e, (is_getrandom_available env ps).2.1,
            (is_getrandom_available env ps).2.2 ++ [.openDev .urandom false])) ∨
    ((is_getrandom_available env ps).1 = false ∧ ps.rngInit = false ∧
      ∃ e, env.openRandom = .error e ∧
        initSource env ps =
          (.error e, (is_getrandom_available env ps).2.1,
            (is_getrandom_available env ps).2.2 ++ [.openDev .random false])) ∨
    ((is_getrandom_available env ps).1 = false ∧ ps.rngInit = false ∧
      env.openRandom = .ok () ∧
      ∃ e, env.readRandom = .error e ∧
        initSource env ps =
          (.error e, (is_getrandom_available env ps).2.1,
            (is_getrandom_available env ps).2.2 ++
              [.openDev .random true, .devRead .random 1 false])) ∨
    ((is_getrandom_available env ps).1 = false ∧ ps.rngInit = false ∧
      env.openRandom = .ok () ∧ env.readRandom = .ok () ∧
      ∃ e, env.openUrandom = .error e ∧
        initSource env ps =
          (.error e, { (is_getrandom_available env ps).2.1 with rngInit := true },
            (is_getrandom_available env ps).2.2 ++
              [.openDev .random true, .devRead .random 1 true,
                .openDev .urandom false])) ∨
    ((is_getrandom_available env ps).1 = false ∧ ps.rngInit = false ∧
      env.openRandom = .ok () ∧ env.readRandom = .ok () ∧
      env.openUrandom = .ok () ∧
      initSource env ps =
        (.ok (.Device ⟨.urandom⟩),
          { (is_getrandom_available env ps).2.1 with rngInit := true },
          (is_getrandom_available env ps).2.2 ++
            [.openDev .random true, .devRead .random 1 true,
              .openDev .urandom true])) := by
  have hr := avail_rngInit env ps
  by_cases hA : (is_getrandom_available env ps).1 = true
  · exact Or.inl ⟨hA, by simp [initSource, hA]⟩
  · replace hA : (is_getrandom_available env ps).1 = false := by
      simpa using hA
    cases hri : ps.rngInit with
    | true =>
        cases hou : env.openUrandom with
        | ok u =>
            cases u
            refine Or.inr (Or.inl ⟨hA, rfl, rfl, ?_⟩)
            simp [initSource, poolReady, hA, hr, hri, hou]
        | error e =>
            refine Or.inr (Or.inr (Or.inl ⟨hA, rfl, e, rfl, ?_⟩))
            simp [initSource, poolReady, hA, hr, hri, hou]
    | false =>
        cases hor : env.openRandom with
        | error e =>
            refine Or.inr (Or.inr (Or.inr (Or.inl ⟨hA, rfl, e, rfl, ?_⟩)))
            simp [initSource, poolReady, hA, hr, hri, hor]
        | ok u =>
            cases u
            cases hrr : env.readRandom with
            | error e =>
                refine Or.inr (Or.inr (Or.inr (Or.inr (Or.inl
                  ⟨hA, rfl, rfl, e, rfl, ?_⟩))))
                simp [initSource, poolReady, hA, hr, hri, hor, hrr]
            | ok u2 =>
                cases u2
                cases hou : env.openUrandom with
                | error e =>
                    refine Or.inr (Or.inr (Or.inr (Or.inr (Or.inr (Or.inl
                      ⟨hA, rfl, rfl, rfl, e, rfl, ?_⟩)))))
                    simp [initSource, poolReady, hA, hr, hri, hor, hrr, hou]
                | ok u3 =>
                    cases u3
                    refine Or.inr (Or.inr (Or.inr (Or.inr (Or.inr (Or.inr
                      ⟨hA, rfl, rfl, rfl, rfl, ?_⟩)))))
                    simp [initSource, poolReady, hA, hr, hri, hor, hrr, hou]

/-- C8: when the syscall is unavailable and the readiness flag is unset,
a failure to open the blocking device, or a failure of the single-byte
read, propagates to the caller as the generic failure and leaves the
readiness flag false; the flag can become true only when the open and the
read both succeed. -/
theorem readiness_probe_failure_propagates (env : Env) (len : Nat)
    (ps : ProcState) (ts : ThreadState) (hts : ts.source = none)
    (hinit : ps.rngInit = false)
    (hav : (is_getrandom_available env ps).1 = false) :
    (∀ e, env.openRandom = .error e →
      (getrandom env len ps ts).1 = .error Error.Unknown ∧
      (getrandom env len ps ts).2.1.rngInit = false) ∧
    (∀ e, env.openRandom = .ok () → env.readRandom = .error e →
      (getrandom env len ps ts).1 = .error Error.Unknown ∧
      (getrandom env len ps ts).2.1.rngInit = false) ∧
    ((getrandom env len ps ts).2.1.rngInit = true →
      env.openRandom = .ok () ∧ env.readRandom = .ok ()) := by
  rcases initSource_cases env ps with
    ⟨hA, _⟩ | ⟨_, hri, _⟩ | ⟨_, hri, _⟩ |
    ⟨_, _, e0, hor, heq⟩ | ⟨_, _, hor, e0, hrr, heq⟩ |
    ⟨_, _, hor, hrr, e0, hou, heq⟩ | ⟨_, _, hor, hrr, hou, heq⟩
  · rw [hA] at hav; cases hav
  · rw [hinit] at hri; cases hri
  · rw [hinit] at hri; cases hri
  · refine ⟨?_, ?_, ?_⟩
    · intro e _
      constructor
      · simp [getrandom, use_init, hts, heq, Except.mapError]
      · simp [getrandom, use_init, hts, heq, avail_rngInit, hinit]
    · intro e hok _
      rw [hor] at hok
      cases hok
    · intro h3
      simp [getrandom, use_init, hts, heq, avail_rngInit, hinit] at h3
  · refine ⟨?_, ?_, ?_⟩
    · intro e he
      rw [hor] at he
      cases he
    · intro e _ _
      constructor
      · simp [getrandom, use_init, hts, heq, Except.mapError]
      · simp [getrandom, use_init, hts, heq, avail_rngInit, hinit]
    · intro h3
      simp [getrandom, use_init, hts, heq, avail_rngInit, hinit] at h3
  · refine ⟨?_, ?_, ?_⟩
    · intro e he
      rw [hor] at he
      cases he
    · intro e _ hrr2
      rw [hrr] at hrr2
      cases hrr2
    · intro _
      exact ⟨hor, hrr⟩
  · refine ⟨?_, ?_, ?_⟩
    · intro e he
      rw [hor] at he
      cases he
    · intro e _ hrr2
      rw [hrr] at hrr2
      cases hrr2
    · intro _
      exact ⟨hor, hrr⟩

/-- Witness for C8: no syscall (`ENOSYS` probe), `/dev/random` open fails
with `EACCES`; the fill fails generically and the flag stays false. -/
theorem readiness_probe_failure_propagates_witness :
    (∀ e, envOpenFail.openRandom = .error e →
      (getrandom envOpenFail 8 ⟨false, none⟩ ⟨none⟩).1 = .error Error.Unknown ∧
      (getrandom envOpenFail 8 ⟨false, none⟩ ⟨none⟩).2.1.rngInit = false) ∧
    (∀ e, envOpenFail.openRandom = .ok () → envOpenFail.readRandom = .error e →
      (getrandom envOpenFail 8 ⟨false, none⟩ ⟨none⟩).1 = .error Error.Unknown ∧
      (getrandom envOpenFail 8 ⟨false, none⟩ ⟨none⟩).2.1.rngInit = false) ∧
    ((getrandom envOpenFail 8 ⟨false, none⟩ ⟨none⟩).2.1.rngInit = true →
      envOpenFail.openRandom = .ok () ∧ envOpenFail.readRandom = .ok ()) :=
  readiness_probe_failure_propagates envOpenFail 8 ⟨false, none⟩ ⟨none⟩
    rfl rfl rfl

/-- Every event produced by `read_exact` is a read of the given handle. -/
theorem readEvents_mem (f : File) (len : Nat) (r : Except IOErr Unit) :
    ∀ x ∈ readEvents f len r, x = Event.devRead f.path len r.isOk := by
  unfold readEvents
  split <;> simp

/-- C3: the blocking single-byte read of the blocking device is performed
only during source resolution (`ts.source = none`), only when the syscall
is unavailable and the readiness flag is unset; a successful read records
the flag; once the flag is true no call performs the blocking read (and
the flag never reverts); and whenever the flag was unset, the blocking
read occurs strictly before any open of the non-blocking device. -/
theorem blocking_read_gate (env : Env) (len : Nat) (ps : ProcState)
    (ts : ThreadState) (hts : validTS ts) :
    (∀ ok, Event.devRead .random 1 ok ∈ (getrandom env len ps ts).2.2.2 →
      ts.source = none ∧ (is_getrandom_available env ps).1 = false ∧
      ps.rngInit = false) ∧
    (Event.devRead .random 1 true ∈ (getrandom env len ps ts).2.2.2 →
      (getrandom env len ps ts).2.1.rngInit = true) ∧
    (ps.rngInit = true →
      ∀ ok, Event.devRead .random 1 ok ∉ (getrandom env len ps ts).2.2.2) ∧
    (ps.rngInit = true → (getrandom env len ps ts).2.1.rngInit = true) ∧
    (ps.rngInit = false →
      ∀ b, Event.openDev .urandom b ∈ (getrandom env len ps ts).2.2.2 →
      before (Event.devRead .random 1 true)
        (fun x => ∃ b', x = Event.openDev .urandom b')
        (getrandom env len ps ts).2.2.2) := by
  cases hsrc : ts.source with
  | some s =>
      have htr : ∀ x ∈ (getrandom env len ps ts).2.2.2,
          (∃ l r, x = Event.syscall l r) ∨
          ∃ l ok, x = Event.devRead .urandom l ok := by
        intro x hx
        simp only [getrandom, use_init, hsrc] at hx
        cases s with
        | GetRandom =>
            simp [dispatch] at hx
            exact Or.inl ⟨len, env.fillSys, hx⟩
        | Device f =>
            have hf := hts f hsrc
            simp only [dispatch] at hx
            have hx2 := readEvents_mem f len env.readDev x hx
            exact Or.inr ⟨len, env.readDev.isOk, by rw [hx2, hf]⟩
      have hps : (getrandom env len ps ts).2.1 = ps := by
        simp [getrandom, use_init, hsrc]
      refine ⟨?_, ?_, ?_, ?_, ?_⟩
      · intro ok hm
        rcases htr _ hm with ⟨l, r, h⟩ | ⟨l, ok2, h⟩ <;> simp at h
      · intro hm
        rcases htr _ hm with ⟨l, r, h⟩ | ⟨l, ok2, h⟩ <;> simp at h
      · intro _ ok hm
        rcases htr _ hm with ⟨l, r, h⟩ | ⟨l, ok2, h⟩ <;> simp at h
      · intro h
        rw [hps]
        exact h
      · intro _ b hm
        rcases htr _ hm with ⟨l, r, h⟩ | ⟨l, ok2, h⟩ <;> simp at h
  | none =>
      rcases initSource_cases env ps with
        ⟨hA, heq⟩ | ⟨hA, hri, hou, heq⟩ | ⟨hA, hri, e0, hou, heq⟩ |
        ⟨hA, hri, e0, hor, heq⟩ | ⟨hA, hri, hor, e0, hrr, heq⟩ |
        ⟨hA, hri, hor, hrr, e0, hou, heq⟩ | ⟨hA, hri, hor, hrr, hou, heq⟩
      · -- syscall available: resolved to GetRandom
        have htr : (getrandom env len ps ts).2.2.2 =
            (is_getrandom_available env ps).2.2 ++ [.syscall len env.fillSys] := by
          simp [getrandom, use_init, hsrc, heq, dispatch]
        have hno : ∀ p l ok, Event.devRead p l ok ∉ (getrandom env len ps ts).2.2.2 := by
          intro p l ok hm
          rw [htr] at hm
          rcases List.mem_append.mp hm with h | h
          · rcases probe_trace_syscall env ps _ h with ⟨r, hr⟩
            simp at hr
          · simp at h
        have hnoo : ∀ p b, Event.openDev p b ∉ (getrandom env len ps ts).2.2.2 := by
          intro p b hm
          rw [htr] at hm
          rcases List.mem_append.mp hm with h | h
          · rcases probe_trace_syscall env ps _ h with ⟨r, hr⟩
            simp at hr
          · simp at h
        refine ⟨fun ok hm => absurd hm (hno _ _ _),
          fun hm => absurd hm (hno _ _ _), fun _ ok => hno _ _ _, ?_,
          fun _ b hm => absurd hm (hnoo _ _)⟩
        intro h
        have hps : (getrandom env len ps ts).2.1 =
            (is_getrandom_available env ps).2.1 := by
          simp [getrandom, use_init, hsrc, heq]
        rw [hps, avail_rngInit]
        exact h
      · -- unavailable, flag already set, urandom opens
        have htr : (getrandom env len ps ts).2.2.2 =
            (is_getrandom_available env ps).2.2 ++
              Event.openDev .urandom true ::
                readEvents ⟨.urandom⟩ len env.readDev := by
          simp [getrandom, use_init, hsrc, heq, dispatch]
        have hno : ∀ ok, Event.devRead .random 1 ok ∉ (getrandom env len ps ts).2.2.2 := by
          intro ok hm
          rw [htr] at hm
          rcases List.mem_append.mp hm with h | h
          · rcases probe_trace_syscall env ps _ h with ⟨r, hr⟩
            simp at hr
          · rcases List.mem_cons.mp h with h | h
            · simp at h
            · have := readEvents_mem _ _ _ _ h
              simp at this
        refine ⟨fun ok hm => absurd hm (hno _),
          fun hm => absurd hm (hno _), fun _ ok => hno _, ?_, ?_⟩
        · intro h
          have hps : (getrandom env len ps ts).2.1 =
              (is_getrandom_available env ps).2.1 := by
            simp [getrandom, use_init, hsrc, heq]
          rw [hps, avail_rngInit]
          exact h
        · intro hri0
          simp [hri] at hri0
      · -- unavailable, flag already set, urandom open fails
        have htr : (getrandom env len ps ts).2.2.2 =
            (is_getrandom_available env ps).2.2 ++ [.openDev .urandom false] := by
          simp [getrandom, use_init, hsrc, heq]
        have hno : ∀ ok, Event.devRead .random 1 ok ∉ (getrandom env len ps ts).2.2.2 := by
          intro ok hm
          rw [htr] at hm
          rcases List.mem_append.mp hm with h | h
          · rcases probe_trace_syscall env ps _ h with ⟨r, hr⟩
            simp at hr
          · simp at h
        refine ⟨fun ok hm => absurd hm (hno _),
          fun hm => absurd hm (hno _), fun _ ok => hno _, ?_, ?_⟩
        · intro h
          have hps : (getrandom env len ps ts).2.1 =
              (is_getrandom_available env ps).2.1 := by
            simp [getrandom, use_init, hsrc, heq]
          rw [hps, avail_rngInit]
          exact h
        · intro hri0
          simp [hri] at hri0
      · -- unavailable, flag unset, /dev/random open fails
        have htr : (getrandom env len ps ts).2.2.2 =
            (is_getrandom_available env ps).2.2 ++ [.openDev .random false] := by
          simp [getrandom, use_init, hsrc, heq]
        have hnou : ∀ b, Event.openDev .urandom b ∉ (getrandom env len ps ts).2.2.2 := by
          intro b hm
          rw [htr] at hm
          rcases List.mem_append.mp hm with h | h
          · rcases probe_trace_syscall env ps _ h with ⟨r, hr⟩
            simp at hr
          · simp at h
        have hno : ∀ ok, Event.devRead .random 1 ok ∉ (getrandom env len ps ts).2.2.2 := by
          intro ok hm
          rw [htr] at hm
          rcases List.mem_append.mp hm with h | h
          · rcases probe_trace_syscall env ps _ h with ⟨r, hr⟩
            simp at hr
          · simp at h
        refine ⟨fun ok _ => ⟨rfl, hA, hri⟩, fun hm => absurd hm (hno _),
          ?_, ?_, fun _ b hm => absurd hm (hnou _)⟩
        · intro h
          simp [hri] at h
        · intro h
          simp [hri] at h
      · -- unavailable, flag unset, blocking read fails
        have htr : (getrandom env len ps ts).2.2.2 =
            (is_getrandom_available env ps).2.2 ++
              [.openDev .random true, .devRead .random 1 false] := by
          simp [getrandom, use_init, hsrc, heq]
        have hnou : ∀ b, Event.openDev .urandom b ∉ (getrandom env len ps ts).2.2.2 := by
          intro b hm
          rw [htr] at hm
          rcases List.mem_append.mp hm with h | h
          · rcases probe_trace_syscall env ps _ h with ⟨r, hr⟩
            simp at hr
          · simp at h
        have hno : Event.devRead .random 1 true ∉ (getrandom env len ps ts).2.2.2 := by
          intro hm
          rw [htr] at hm
          rcases List.mem_append.mp hm with h | h
          · rcases probe_trace_syscall env ps _ h with ⟨r, hr⟩
            simp at hr
          · simp at h
        refine ⟨fun ok _ => ⟨rfl, hA, hri⟩, fun hm => absurd hm hno,
          ?_, ?_, fun _ b hm => absurd hm (hnou _)⟩
        · intro h
          simp [hri] at h
        · intro h
          simp [hri] at h
      · -- unavailable, flag unset, read succeeds, urandom open fails
        have htr : (getrandom env len ps ts).2.2.2 =
            (is_getrandom_available env ps).2.2 ++
              [.openDev .random true, .devRead .random 1 true,
                .openDev .urandom false] := by
          simp [getrandom, use_init, hsrc, heq]
        have hps : (getrandom env len ps ts).2.1.rngInit = true := by
          simp [getrandom, use_init, hsrc, heq]
        refine ⟨fun ok _ => ⟨rfl, hA, hri⟩, fun _ => hps, ?_, ?_, ?_⟩
        · intro h
          simp [hri] at h
        · intro h
          simp [hri] at h
        · intro _ b _
          refine ⟨(is_getrandom_available env ps).2.2 ++ [.openDev .random true],
            [.openDev .urandom false], ?_, ?_⟩
          · rw [htr]
            simp
          · intro x hx
            rcases List.mem_append.mp hx with h | h
            · rcases probe_trace_syscall env ps _ h with ⟨r, hr⟩
              subst hr
              simp
            · simp at h
              subst h
              simp
      · -- unavailable, flag unset, everything succeeds
        have htr : (getrandom env len ps ts).2.2.2 =
            (is_getrandom_available env ps).2.2 ++
              Event.openDev .random true :: Event.devRead .random 1 true ::
                Event.openDev .urandom true ::
                  readEvents ⟨.urandom⟩ len env.readDev := by
          simp [getrandom, use_init, hsrc, heq, dispatch]
        have hps : (getrandom env len ps ts).2.1.rngInit = true := by
          simp [getrandom, use_init, hsrc, heq]
        refine ⟨fun ok _ => ⟨rfl, hA, hri⟩, fun _ => hps, ?_, ?_, ?_⟩
        · intro h
          simp [hri] at h
        · intro h
          simp [hri] at h
        · intro _ b _
          refine ⟨(is_getrandom_available env ps).2.2 ++ [.openDev .random true],
            Event.openDev .urandom true ::
              readEvents ⟨.urandom⟩ len env.readDev, ?_, ?_⟩
          · rw [htr]
            simp
          · intro x hx
            rcases List.mem_append.mp hx with h | h
            · rcases probe_trace_syscall env ps _ h with ⟨r, hr⟩
              subst hr
              simp
            · simp at h
              subst h
              simp

/-- Witness for C3: a kernel without the syscall, fresh process state,
fresh thread, one-byte fill on the all-success device oracle. -/
theorem blocking_read_gate_witness :
    (∀ ok, Event.devRead .random 1 ok ∈
        (getrandom envNoSys 1 ⟨false, none⟩ ⟨none⟩).2.2.2 →
      (⟨none⟩ : ThreadState).source = none ∧
      (is_getrandom_available envNoSys ⟨false, none⟩).1 = false ∧
      (⟨false, none⟩ : ProcState).rngInit = false) ∧
    (Event.devRead .random 1 true ∈
        (getrandom envNoSys 1 ⟨false, none⟩ ⟨none⟩).2.2.2 →
      (getrandom envNoSys 1 ⟨false, none⟩ ⟨none⟩).2.1.rngInit = true) ∧
    ((⟨false, none⟩ : ProcState).rngInit = true →
      ∀ ok, Event.devRead .random 1 ok ∉
        (getrandom envNoSys 1 ⟨false, none⟩ ⟨none⟩).2.2.2) ∧
    ((⟨false, none⟩ : ProcState).rngInit = true →
      (getrandom envNoSys 1 ⟨false, none⟩ ⟨none⟩).2.1.rngInit = true) ∧
    ((⟨false, none⟩ : ProcState).rngInit = false →
      ∀ b, Event.openDev .urandom b ∈
        (getrandom envNoSys 1 ⟨false, none⟩ ⟨none⟩).2.2.2 →
      before (Event.devRead .random 1 true)
        (fun x => ∃ b', x = Event.openDev .urandom b')
        (getrandom envNoSys 1 ⟨false, none⟩ ⟨none⟩).2.2.2) :=
  blocking_read_gate envNoSys 1 ⟨false, none⟩ ⟨none⟩ (fun _ h => nomatch h)

/-- The reachable-state invariant is preserved by every fill call: any
device handle a thread ever caches was opened on `/dev/urandom`. -/
theorem validTS_preserved (env : Env) (len : Nat) (ps : ProcState)
    (ts : ThreadState) (h : validTS ts) :
    validTS (getrandom env len ps ts).2.2.1 := by
  intro f hf
  cases hsrc : ts.source with
  | some s =>
      have hts : (getrandom env len ps ts).2.2.1 = ts := by
        simp only [getrandom, use_init, hsrc]
        rw [← hsrc]
      rw [hts] at hf
      exact h f hf
  | none =>
      rcases initSource_cases env ps with
        ⟨hA, heq⟩ | ⟨hA, hri, hou, heq⟩ | ⟨hA, hri, e0, hou, heq⟩ |
        ⟨hA, hri, e0, hor, heq⟩ | ⟨hA, hri, hor, e0, hrr, heq⟩ |
        ⟨hA, hri, hor, hrr, e0, hou, heq⟩ | ⟨hA, hri, hor, hrr, hou, heq⟩ <;>
        simp only [getrandom, use_init, hsrc, heq] at hf <;>
        simp at hf
      · rw [← hf]
      · rw [← hf]

/-- C5 counterexample: with the syscall source already resolved and the
availability probe long cached, the public zero-length fill still issues
a zero-length syscall — the fill path performs I/O — and when that
syscall is interrupted (`EINTR`) the zero-length fill even fails rather
than being trivially successful. -/
theorem zero_length_fill_counterexample :
    (getrandom env0 0 ⟨true, some true⟩ ⟨some .GetRandom⟩).2.2.2 =
      [Event.syscall 0 ⟨0, 0⟩] ∧
    (getrandom envEintr 0 ⟨true, some true⟩ ⟨some .GetRandom⟩).1 =
      .error Error.Unknown := by
  constructor <;> rfl

/-- C5 (amended): a zero-length fill on a thread with a resolved source
is trivially successful with no I/O when the source is a device handle
(`read_exact` of an empty buffer reads nothing); when the source is the
direct syscall, the public fill path itself issues a zero-length syscall
and succeeds exactly when that syscall returns `0`. -/
theorem zero_length_fill (env : Env) (ps : ProcState) (ts : ThreadState)
    (s : RngSource) (h : ts.source = some s) :
    (∀ f, s = .Device f → getrandom env 0 ps ts = (.ok (), ps, ts, [])) ∧
    (s = .GetRandom →
      (getrandom env 0 ps ts).2.2.2 = [.syscall 0 env.fillSys] ∧
      ((getrandom env 0 ps ts).1 = .ok () ↔ env.fillSys.ret = 0)) := by
  have ha : asI64 0 = 0 := by decide
  constructor
  · rintro f rfl
    have h1 : read_exact 0 env.readDev = .ok () := by simp [read_exact]
    have h2 : readEvents f 0 env.readDev = [] := by simp [readEvents]
    simp only [getrandom, use_init, h, dispatch, h1, h2, Except.mapError]
    rw [← h]
  · rintro rfl
    constructor
    · simp [getrandom, use_init, h, dispatch]
    · simp only [getrandom, use_init, h, dispatch]
      rw [mapError_ok_iff]
      unfold syscall_getrandom
      rw [ha]
      constructor
      · intro hok
        by_cases hc : env.fillSys.ret = -1 ∨ env.fillSys.ret ≠ 0
        · rw [if_pos hc] at hok
          cases hok
        · push_neg at hc
          exact hc.2
      · intro h0
        have hc : ¬(env.fillSys.ret = -1 ∨ env.fillSys.ret ≠ 0) := by
          push_neg
          exact ⟨by omega, h0⟩
        rw [if_neg hc]

/-- Witness for C5 (amended) at a cached urandom device handle. -/
theorem zero_length_fill_witness :
    (∀ f, RngSource.Device ⟨.urandom⟩ = RngSource.Device f →
      getrandom env0 0 ⟨true, some true⟩ ⟨some (.Device ⟨.urandom⟩)⟩ =
        (.ok (), ⟨true, some true⟩, ⟨some (.Device ⟨.urandom⟩)⟩, [])) ∧
    (RngSource.Device ⟨.urandom⟩ = RngSource.GetRandom →
      (getrandom env0 0 ⟨true, some true⟩ ⟨some (.Device ⟨.urandom⟩)⟩).2.2.2 =
        [.syscall 0 env0.fillSys] ∧
      ((getrandom env0 0 ⟨true, some true⟩ ⟨some (.Device ⟨.urandom⟩)⟩).1 =
          .ok () ↔ env0.fillSys.ret = 0)) :=
  zero_length_fill env0 ⟨true, some true⟩ ⟨some (.Device ⟨.urandom⟩)⟩
    (.Device ⟨.urandom⟩) rfl

end Getrandom
